import Mathlib

/-!
Shallow embedding of the order-and-payment core of the webmarketapi
backend (FastAPI + MongoDB).  Each definition mirrors one Python function
of the repository; MongoDB collections are modelled as association lists
keyed by document id (`Nat` stands for an `ObjectId`), `find_one` as
first-match lookup and `update_one` as first-match in-place update.
Python `float` prices are modelled by exact rationals; the `stock`
counter is an `Int`, as Mongo's `$inc` has no lower bound (the Pydantic
`ge=0` bound applies only when a document is parsed into the `Product`
model at the API boundary).  Fields never read by the modelled
operations (descriptions, timestamps, shipping addresses, categories)
are omitted.
-/

namespace WebMarket

/-- `OrderStatus` enum, models.py lines 59-65. -/
inductive OrderStatus where
  | PENDING
  | PROCESSING
  | SHIPPED
  | DELIVERED
  | CANCELLED
  | REFUNDED
deriving DecidableEq, Repr

/-- Product document (models.py lines 77-93): the fields read by the
order/cart/inventory code.  `price` is a Python float, modelled exactly;
`stock` is the raw Mongo counter (an `Int`: `$inc` can in principle
drive it below zero). -/
structure Product where
  name : String
  price : ℚ
  stock : Int
deriving DecidableEq, Repr

/-- Cart line (models.py lines 136-138): `product_id` plus a requested
`quantity`.  The raw wire value may be `0`; the Pydantic bound `gt=0`
is modelled separately by `cartItemValid`. -/
structure CartItem where
  product_id : Nat
  quantity : Nat
deriving DecidableEq, Repr

/-- Pydantic validation of a `CartItem` request body: `quantity` is
declared `gt=0` (models.py line 138), so the framework rejects a body
with `quantity = 0` (HTTP 422) before any handler runs. -/
def cartItemValid (it : CartItem) : Bool :=
  0 < it.quantity

/-- Order line snapshot (models.py lines 152-159): name and unit price
are copied out of the product at order-creation time. -/
structure OrderItem where
  product_id : Nat
  name : String
  quantity : Nat
  price_at_purchase : ℚ
deriving DecidableEq, Repr

/-- Order document (models.py lines 173-185), restricted to the fields
the modelled operations read or write. -/
structure Order where
  user_id : Nat
  items : List OrderItem
  total_amount : ℚ
  status : OrderStatus
  payment_id : Option Nat
deriving DecidableEq, Repr

/-- Low-stock alert document (models.py lines 209-219). -/
structure InventoryAlert where
  product_id : Nat
  product_name : String
  current_stock : Int
  threshold : Nat
  message : String
deriving DecidableEq, Repr

/-- The raw payment payload fetched from the gateway by
`sdk.payment().get(id)`: the webhook reads only `external_reference`
(the order id it encodes) and `status`. -/
structure PaymentInfo where
  external_reference : Option Nat
  status : String
deriving DecidableEq, Repr

/-- `find_one` on a collection keyed by id: first matching document. -/
def lookup {α : Type} (l : List (Nat × α)) (k : Nat) : Option α :=
  match l with
  | [] => none
  | (k', v) :: rest => if k' = k then some v else lookup rest k

/-- `update_one` on a collection keyed by id: rewrite the first
matching document with `f`; a miss is a no-op (`matched_count = 0`). -/
def setEntry {α : Type} (l : List (Nat × α)) (k : Nat) (f : α → α) :
    List (Nat × α) :=
  match l with
  | [] => []
  | (k', v) :: rest =>
    if k' = k then (k', f v) :: rest else (k', v) :: setEntry rest k f

/-- The database state: the five collections the core touches, plus the
id the store will assign to the next inserted order. -/
structure DB where
  products : List (Nat × Product)
  orders : List (Nat × Order)
  carts : List (Nat × List CartItem)
  alerts : List InventoryAlert
  payments : List PaymentInfo
  nextOrderId : Nat
deriving DecidableEq, Repr

/-- Restock loop of `update_order_status` (routers/orders.py lines
182-197): for each order item, `$inc` the product's stock by the item's
quantity; a missing product is logged and skipped (the `update_one`
no-op already gives that behaviour). -/
def restockItems (ps : List (Nat × Product)) :
    List OrderItem → List (Nat × Product)
  | [] => ps
  | it :: rest =>
    restockItems
      (setEntry ps it.product_id
        (fun p => { p with stock := p.stock + it.quantity })) rest

/-- `update_order_status` (routers/orders.py lines 154-208), the admin
status-transition endpoint.  Faithful to the source's indentation: the
`if new_status in [CANCELLED, REFUNDED] and current_status not in
[...]` statement at lines 178-180 governs ONLY the `logger.info` call
at line 181; the `for item in current_order["items"]` restock loop at
lines 182-197 is written at the same indentation level as that `if`,
so it executes on EVERY transition of an existing order, whatever the
old and new statuses are.  Afterwards the order's status is `$set` to
the new value (line 200).  Errors: 400 for a malformed id (not
representable here, ids are `Nat`), 404 for a missing order. -/
def update_order_status (db : DB) (order_id : Nat)
    (new_status : OrderStatus) : DB × Except Nat Unit :=
  match lookup db.orders order_id with
  | none => (db, .error 404)
  | some ord =>
    let products' := restockItems db.products ord.items
    let orders' :=
      setEntry db.orders order_id (fun o => { o with status := new_status })
    ({ db with products := products', orders := orders' }, .ok ())

/-- What the spec describes for `TransitionStatus`: restock fires iff
the new status is CANCELLED/REFUNDED and the previous one was not
already in that set.  Kept only to compare against the source-faithful
`update_order_status` above. -/
def update_order_status_spec (db : DB) (order_id : Nat)
    (new_status : OrderStatus) : DB × Except Nat Unit :=
  match lookup db.orders order_id with
  | none => (db, .error 404)
  | some ord =>
    let restock :=
      (new_status = OrderStatus.CANCELLED ∨
        new_status = OrderStatus.REFUNDED) ∧
      ¬(ord.status = OrderStatus.CANCELLED ∨
        ord.status = OrderStatus.REFUNDED)
    let products' :=
      if restock then restockItems db.products ord.items else db.products
    let orders' :=
      setEntry db.orders order_id (fun o => { o with status := new_status })
    ({ db with products := products', orders := orders' }, .ok ())

/-!
The Mercado Pago webhook (routers/payments.py lines 85-139).

Line 1 of payments.py imports `APIRouter, Depends, HTTPException,
status, Request` from fastapi and nothing else provides a name
`Response`; yet all three `return` statements of the handler (lines
114, 137 and 139) evaluate `Response(status_code=...)`.  Each of them
therefore raises `NameError` at runtime.  The one at line 114 is inside
the `try` block, so it is caught by the `except Exception` arm, whose
own `return Response(...)` at line 137 raises `NameError` again,
uncaught; the final `return Response(...)` at line 139 is outside the
`try`.  An exception escaping the handler makes the framework reply
HTTP 500.  Hence every exit of the handler replies 500, after the
database writes of the taken branch have already been committed.  The
model returns the new state paired with the HTTP status actually sent.

The gateway fetch `sdk.payment().get(payment_id)` is an input,
`gateway : Nat → Option PaymentInfo`; `none` models the SDK raising
(caught by the same `except` arm, before the audit insert).
-/
def handle_mercadopago_webhook (db : DB) (topic : Option String)
    (payment_id : Option Nat) (gateway : Nat → Option PaymentInfo) :
    DB × Nat :=
  match topic, payment_id with
  | some t, some pid =>
    if t = "payment" then
      match gateway pid with
      | none =>
        -- sdk raised before any write; except arm logs, then the
        -- `return Response` at line 137 raises NameError: reply 500
        (db, 500)
      | some info =>
        -- line 107: audit insert of the raw payload
        let db₁ := { db with payments := db.payments ++ [info] }
        match info.external_reference with
        | none =>
          -- line 114 `return Response` raises NameError inside the
          -- try, the except arm's line 137 raises again: reply 500
          (db₁, 500)
        | some oid =>
          match lookup db₁.orders oid with
          | some o =>
            if info.status = "approved" ∧ o.status = OrderStatus.PENDING
            then
              ({ db₁ with
                  orders := setEntry db₁.orders oid
                    (fun x => { x with
                        status := OrderStatus.PROCESSING,
                        payment_id := some pid }) }, 500)
            else if info.status = "rejected" ∨ info.status = "cancelled"
            then
              ({ db₁ with
                  orders := setEntry db₁.orders oid
                    (fun x => { x with
                        status := OrderStatus.CANCELLED,
                        payment_id := some pid }) }, 500)
            else
              -- any other combination: no order write
              (db₁, 500)
          | none =>
            -- line 132: order not found, log only
            (db₁, 500)
    else (db, 500)
  | _, _ =>
    -- topic ≠ payment or id missing: straight to line 139,
    -- whose `Response` is unbound: reply 500
    (db, 500)

/-- Validation-and-snapshot loop of `create_order` (routers/orders.py
lines 54-79): walk the cart in order; a missing product aborts with
404, `product.stock < quantity` aborts with 409; otherwise build the
`OrderItem` snapshot copying the product's current name and price.  All
raises happen here, before any database write. -/
def snapshotCart (products : List (Nat × Product)) :
    List CartItem → Except Nat (List OrderItem)
  | [] => .ok []
  | it :: rest =>
    match lookup products it.product_id with
    | none => .error 404
    | some p =>
      if p.stock < (it.quantity : Int) then .error 409
      else
        match snapshotCart products rest with
        | .error e => .error e
        | .ok tail =>
          .ok (⟨it.product_id, p.name, it.quantity, p.price⟩ :: tail)

/-- Running total of `create_order` (line 73): `total_amount +=
price_at_purchase * quantity`, accumulated in loop order. -/
def orderTotal (items : List OrderItem) : ℚ :=
  items.foldl (fun acc i => acc + i.price_at_purchase * (i.quantity : ℚ)) 0

/-- Stock-decrement loop of `create_order` (lines 100-104): one
`$inc {stock: -quantity}` per cart item, in cart order. -/
def decrementAll (ps : List (Nat × Product)) :
    List CartItem → List (Nat × Product)
  | [] => ps
  | it :: rest =>
    decrementAll
      (setEntry ps it.product_id
        (fun p => { p with stock := p.stock - it.quantity })) rest

/-- Explicit form of the snapshot the `create_order` loop builds when
every cart item validates: one `OrderItem` per cart line, carrying the
product's current name and price (items whose product is missing never
occur on the success path). -/
def snapshotted (P : List (Nat × Product)) (items : List CartItem) :
    List OrderItem :=
  items.filterMap fun it =>
    (lookup P it.product_id).map fun p =>
      ⟨it.product_id, p.name, it.quantity, p.price⟩

/-- `create_order` (routers/orders.py lines 27-115).  Reads the
caller's cart (400 if absent or empty), validates and snapshots every
item (`snapshotCart`), inserts the order with status PENDING and
`total_amount` accumulated from the snapshot, then decrements each
product's stock and finally empties the cart.  The store assigns
`db.nextOrderId` to the inserted document.  The pair returned is the
state at exit together with the HTTP outcome (order id on success). -/
def create_order (db : DB) (user_id : Nat) : DB × Except Nat Nat :=
  match lookup db.carts user_id with
  | none => (db, .error 400)
  | some cart =>
    if cart.isEmpty then (db, .error 400)
    else
      match snapshotCart db.products cart with
      | .error e => (db, .error e)
      | .ok oitems =>
        let oid := db.nextOrderId
        let order : Order :=
          ⟨user_id, oitems, orderTotal oitems, OrderStatus.PENDING, none⟩
        let db₁ := { db with
          orders := db.orders ++ [(oid, order)],
          nextOrderId := oid + 1 }
        let db₂ := { db₁ with
          products := decrementAll db₁.products cart }
        let db₃ := { db₂ with
          carts := setEntry db₂.carts user_id (fun _ => []) }
        (db₃, .ok oid)

/-- `update_product` (routers/products.py lines 105-140): admin catalog
edit; `$set`s the submitted fields (id excluded) on the matched
product, 404 when no product matches.  Touches only the products
collection. -/
def update_product (db : DB) (product_id : Nat) (upd : Product) :
    DB × Except Nat Unit :=
  match lookup db.products product_id with
  | none => (db, .error 404)
  | some _ =>
    ({ db with products := setEntry db.products product_id (fun _ => upd) },
      .ok ())

/-- The low-stock threshold, routers/inventory.py line 16. -/
def LOW_STOCK_THRESHOLD : Nat := 10

/-- The alert message built at routers/inventory.py line 31:
`f"El stock del producto '{name}' es bajo ({stock})."`. -/
def alertMessage (name : String) (stock : Int) : String :=
  "El stock del producto \x27" ++ name ++ "\x27 es bajo (" ++
    toString stock ++ ")."

/-- `check_and_create_alert` (routers/inventory.py lines 25-48),
invoked after each stock mutation.  Reads the product; if its stock is
at or below `LOW_STOCK_THRESHOLD`, builds the message and inserts a new
`InventoryAlert` unless `find_one({"product_id": ..., "message": ...})`
finds an alert with the SAME product_id AND the same message text. -/
def check_and_create_alert (db : DB) (product_id : Nat) : DB :=
  match lookup db.products product_id with
  | none => db
  | some p =>
    if p.stock ≤ (LOW_STOCK_THRESHOLD : Int) then
      let msg := alertMessage p.name p.stock
      if db.alerts.any
          (fun a => a.product_id == product_id && a.message == msg) then
        db
      else
        { db with alerts := db.alerts ++
            [⟨product_id, p.name, p.stock, LOW_STOCK_THRESHOLD, msg⟩] }
    else db

/-- `update_product_stock` (routers/inventory.py lines 52-79): `$set`
the stock to an absolute value (the endpoint validates `new_stock ≥ 0`),
404 when no product matches, then run the alert check. -/
def update_product_stock (db : DB) (product_id : Nat) (new_stock : Nat) :
    DB × Except Nat Unit :=
  match lookup db.products product_id with
  | none => (db, .error 404)
  | some _ =>
    let db₁ := { db with
      products := setEntry db.products product_id
        (fun p => { p with stock := (new_stock : Int) }) }
    (check_and_create_alert db₁ product_id, .ok ())

/-- `get_user_cart` (routers/cart.py lines 23-34): fetch the caller's
cart, creating an empty one when none exists yet. -/
def get_user_cart (db : DB) (user_id : Nat) : DB × List CartItem :=
  match lookup db.carts user_id with
  | some items => (db, items)
  | none => ({ db with carts := db.carts ++ [(user_id, [])] }, [])

/-- In-cart merge of `add_to_cart` (routers/cart.py lines 94-99): the
first line with the same product gets `quantity += requested` and the
loop breaks. -/
def addQuantity : List CartItem → CartItem → List CartItem
  | [], _ => []
  | it :: rest, b =>
    if it.product_id = b.product_id then
      { it with quantity := it.quantity + b.quantity } :: rest
    else it :: addQuantity rest b

/-- `add_to_cart` (routers/cart.py lines 67-107), body already past
Pydantic validation (`cartItemValid`, wired in by the endpoint wrapper
below).  Checks the product exists (404) and that the product's CURRENT
stock covers the REQUESTED quantity alone (400 otherwise) — the
quantity already accumulated in the cart is not consulted.  Then merges
the request into the cart (summing quantities for a repeated product)
and saves. -/
def add_to_cart_handler (db : DB) (user_id : Nat) (body : CartItem) :
    DB × Except Nat (List CartItem) :=
  match lookup db.products body.product_id with
  | none => (db, .error 404)
  | some p =>
    if p.stock < (body.quantity : Int) then (db, .error 400)
    else
      let (db₁, cart) := get_user_cart db user_id
      let newItems :=
        if cart.any (fun it => it.product_id == body.product_id) then
          addQuantity cart body
        else cart ++ [body]
      ({ db₁ with carts := setEntry db₁.carts user_id (fun _ => newItems) },
        .ok newItems)

/-- The `/cart/add` endpoint as exposed over HTTP: Pydantic validates
the `CartItem` body first (`quantity` must be `> 0`, else HTTP 422),
then the handler runs. -/
def add_to_cart (db : DB) (user_id : Nat) (body : CartItem) :
    DB × Except Nat (List CartItem) :=
  if cartItemValid body then add_to_cart_handler db user_id body
  else (db, .error 422)

/-- Item rewrite of `update_cart_item_quantity` (routers/cart.py lines
138-148): rebuild the list, setting the matched product's quantity, or
dropping the line when the requested quantity is 0. -/
def rewriteItems (items : List CartItem) (b : CartItem) : List CartItem :=
  match items with
  | [] => []
  | it :: rest =>
    if it.product_id = b.product_id then
      if 0 < b.quantity then { it with quantity := b.quantity } :: rewriteItems rest b
      else rewriteItems rest b
    else it :: rewriteItems rest b

/-- `update_cart_item_quantity` (routers/cart.py lines 109-158), body
already past Pydantic validation.  When the quantity is positive the
product must exist (404) with stock covering it (400); then the cart is
rewritten — the docstring's remove-on-zero branch lives at lines 143-146
— failing 404 when the product is not in the cart. -/
def update_cart_item_quantity_handler (db : DB) (user_id : Nat)
    (body : CartItem) : DB × Except Nat (List CartItem) :=
  let check : Except Nat Unit :=
    if 0 < body.quantity then
      match lookup db.products body.product_id with
      | none => .error 404
      | some p =>
        if p.stock < (body.quantity : Int) then .error 400 else .ok ()
    else .ok ()
  match check with
  | .error e => (db, .error e)
  | .ok _ =>
    let (db₁, cart) := get_user_cart db user_id
    if cart.any (fun it => it.product_id == body.product_id) then
      let newItems := rewriteItems cart body
      ({ db₁ with carts := setEntry db₁.carts user_id (fun _ => newItems) },
        .ok newItems)
    else (db₁, .error 404)

/-- The `/cart/update` endpoint as exposed over HTTP: Pydantic rejects
a body with `quantity = 0` (HTTP 422) before the handler runs. -/
def update_cart_item_quantity (db : DB) (user_id : Nat) (body : CartItem) :
    DB × Except Nat (List CartItem) :=
  if cartItemValid body then update_cart_item_quantity_handler db user_id body
  else (db, .error 422)

/-! Concrete fixtures used to exercise the operations. -/

/-- A catalog with one product: id 1, name "Fernet", price 10, stock 5. -/
def demoProducts : List (Nat × Product) :=
  [(1, ⟨"Fernet", 10, 5⟩)]

/-- One pending order, id 0, owned by user 2, holding two units of
product 1 at the snapshot price 10. -/
def demoOrder : Order :=
  ⟨2, [⟨1, "Fernet", 2, 10⟩], 20, OrderStatus.PENDING, none⟩

/-- State for exercising the admin status transition: the catalog above
plus the pending order. -/
def demoDB : DB :=
  ⟨demoProducts, [(0, demoOrder)], [], [], [], 3⟩

/-- Gateway stub: payment 99 is a rejected payment referencing order 0. -/
def demoGatewayRejected : Nat → Option PaymentInfo :=
  fun i => if i = 99 then some ⟨some 0, "rejected"⟩ else none

/-- Gateway stub: payment 99 is an approved payment referencing order 0. -/
def demoGatewayApproved : Nat → Option PaymentInfo :=
  fun i => if i = 99 then some ⟨some 0, "approved"⟩ else none

/-- State for exercising order creation: user 2's cart requests two
units of product 1 (price 10, stock 5). -/
def demoCartDB : DB :=
  ⟨demoProducts, [], [(2, [⟨1, 2⟩])], [], [], 3⟩

/-- State for exercising the insufficient-stock path: product 1 has
stock 1 and user 2's cart requests two units. -/
def lowStockDB : DB :=
  ⟨[(1, ⟨"Fernet", 10, 1⟩)], [], [(2, [⟨1, 2⟩])], [], [], 3⟩

/-- Two distinct products that happen to share the name "Fernet", both
at stock 9; an alert for product 1 with the message that stock 9
produces is already on file. -/
def duplicateNameDB : DB :=
  ⟨[(1, ⟨"Fernet", 10, 9⟩), (2, ⟨"Fernet", 12, 9⟩)], [], [],
    [⟨1, "Fernet", 9, LOW_STOCK_THRESHOLD, alertMessage "Fernet" 9⟩],
    [], 3⟩

/-- State for the low-stock alert scenario: product 1 at stock 11, no
alerts yet. -/
def alertDB : DB :=
  ⟨[(1, ⟨"Fernet", 10, 11⟩)], [], [], [], [], 3⟩

/-- State for exercising the cart endpoints: product 1 at stock 3 and
user 7 without a cart yet. -/
def cartDemoDB : DB :=
  ⟨[(1, ⟨"Fernet", 10, 3⟩)], [], [], [], [], 3⟩

/-- State for exercising the cart-update endpoint: user 7 already has
one unit of product 1 in the cart. -/
def cartWithItemDB : DB :=
  ⟨[(1, ⟨"Fernet", 10, 3⟩)], [], [(7, [⟨1, 1⟩])], [], [], 3⟩

end WebMarket

namespace WebMarket

/-! ### Store-primitive lemmas -/

theorem lookup_setEntry_self {α : Type} (l : List (Nat × α)) (k : Nat)
    (f : α → α) : lookup (setEntry l k f) k = (lookup l k).map f := by
  induction l with
  | nil => rfl
  | cons hd tl ih =>
    obtain ⟨k', v⟩ := hd
    by_cases h : k' = k
    · simp [lookup, setEntry, h]
    · simp [lookup, setEntry, h, ih]

theorem lookup_setEntry_ne {α : Type} (l : List (Nat × α)) (k k' : Nat)
    (f : α → α) (h : k ≠ k') :
    lookup (setEntry l k f) k' = lookup l k' := by
  induction l with
  | nil => rfl
  | cons hd tl ih =>
    obtain ⟨k₀, v⟩ := hd
    by_cases hk : k₀ = k
    · subst hk
      simp [lookup, setEntry, h]
    · simp only [setEntry, if_neg hk, lookup]
      by_cases hk' : k₀ = k'
      · simp [hk']
      · simp [hk', ih]

theorem lookup_append_right {α : Type} (l : List (Nat × α)) (k : Nat)
    (v : α) (h : lookup l k = none) :
    lookup (l ++ [(k, v)]) k = some v := by
  induction l with
  | nil => simp [lookup]
  | cons hd tl ih =>
    obtain ⟨k', w⟩ := hd
    by_cases hk : k' = k
    · simp [lookup, hk] at h
    · simp only [lookup, if_neg hk] at h
      simpa [lookup, hk] using ih h

/-! ### C1 — restock on status transitions -/

/-- C1: refuted on the code.  The claim says stock is restocked iff the
new status is CANCELLED/REFUNDED and the old one was not, and that a
PENDING → PROCESSING transition leaves stock unchanged while a repeated
CANCELLED transition restocks only once.  Because the restock loop in
the source sits outside the guarding `if`, the code restocks on EVERY
transition: moving `demoDB`'s order (2 units of product 1, stock 5)
from PENDING to PROCESSING bumps the stock to 7, and transitioning to
CANCELLED twice bumps it twice, to 9. -/
theorem update_order_status_restocks_on_every_transition :
    lookup (update_order_status demoDB 0
        OrderStatus.PROCESSING).1.products 1 = some ⟨"Fernet", 10, 7⟩ ∧
    ¬ lookup (update_order_status demoDB 0
        OrderStatus.PROCESSING).1.products 1 = some ⟨"Fernet", 10, 5⟩ ∧
    lookup (update_order_status demoDB 0
        OrderStatus.PROCESSING).1.orders 0 =
      some { demoOrder with status := OrderStatus.PROCESSING } ∧
    lookup (update_order_status
        (update_order_status demoDB 0 OrderStatus.CANCELLED).1
        0 OrderStatus.CANCELLED).1.products 1 =
      some ⟨"Fernet", 10, 9⟩ :=
  ⟨rfl, by decide, rfl, rfl⟩

/-! ### C2 — webhook acknowledgment -/

/-- C2: refuted on the code.  The claim says the webhook always replies
HTTP 200.  Since payments.py never imports `Response`, every exit of
the handler raises `NameError` and the framework replies HTTP 500, for
every topic, payload, and gateway outcome. -/
theorem handle_webhook_always_replies_500 (db : DB)
    (topic : Option String) (payment_id : Option Nat)
    (gateway : Nat → Option PaymentInfo) :
    (handle_mercadopago_webhook db topic payment_id gateway).2 = 500 := by
  unfold handle_mercadopago_webhook
  dsimp only
  repeat' split
  all_goals rfl

/-! ### C3 — webhook cancellation and restock -/

/-- C3 counterexample: on `demoDB` (order 0 holds 2 units of product 1,
whose stock is 5) a webhook for rejected payment 99 sets the order to
CANCELLED, yet product 1's stock stays 5 — it is not incremented to 7
as the claim's restock side effect would require. -/
theorem webhook_cancellation_no_restock_counterexample :
    lookup (handle_mercadopago_webhook demoDB (some "payment") (some 99)
        demoGatewayRejected).1.orders 0 =
      some { demoOrder with status := OrderStatus.CANCELLED,
                            payment_id := some 99 } ∧
    lookup (handle_mercadopago_webhook demoDB (some "payment") (some 99)
        demoGatewayRejected).1.products 1 = some ⟨"Fernet", 10, 5⟩ ∧
    ¬ lookup (handle_mercadopago_webhook demoDB (some "payment") (some 99)
        demoGatewayRejected).1.products 1 = some ⟨"Fernet", 10, 7⟩ :=
  ⟨rfl, rfl, by decide⟩

/-- C3 (amended): a webhook delivery whose fetched payment has status
rejected or cancelled and whose external_reference names an existing
order sets that order's status to CANCELLED (attaching the payment id)
by a direct store write, WITHOUT any restock: the products collection
is left exactly as it was. -/
theorem webhook_rejected_cancels_order_without_restock
    (db : DB) (pid oid : Nat) (o : Order)
    (gateway : Nat → Option PaymentInfo) (info : PaymentInfo)
    (hg : gateway pid = some info)
    (hs : info.status = "rejected" ∨ info.status = "cancelled")
    (href : info.external_reference = some oid)
    (ho : lookup db.orders oid = some o) :
    lookup (handle_mercadopago_webhook db (some "payment") (some pid)
        gateway).1.orders oid =
      some { o with status := OrderStatus.CANCELLED,
                    payment_id := some pid } ∧
    (handle_mercadopago_webhook db (some "payment") (some pid)
        gateway).1.products = db.products := by
  have hne : ¬(info.status = "approved" ∧
      o.status = OrderStatus.PENDING) := by
    rcases hs with h | h <;> simp [h]
  unfold handle_mercadopago_webhook
  dsimp only
  rw [if_pos rfl, hg]
  dsimp only
  rw [href]
  dsimp only
  rw [ho]
  dsimp only
  rw [if_neg hne, if_pos hs]
  dsimp only
  constructor
  · rw [lookup_setEntry_self, ho]
    rfl
  · rfl

/-- C3 witness: the amended statement evaluated on `demoDB` with the
rejected-payment gateway stub. -/
theorem webhook_rejected_cancels_order_without_restock_witness :
    lookup (handle_mercadopago_webhook demoDB (some "payment") (some 99)
        demoGatewayRejected).1.orders 0 =
      some { demoOrder with status := OrderStatus.CANCELLED,
                            payment_id := some 99 } ∧
    (handle_mercadopago_webhook demoDB (some "payment") (some 99)
        demoGatewayRejected).1.products = demoDB.products :=
  webhook_rejected_cancels_order_without_restock demoDB 99 0 demoOrder
    demoGatewayRejected ⟨some 0, "rejected"⟩ rfl (Or.inl rfl) rfl rfl

/-! ### C4 — idempotent approval processing -/

theorem webhook_products_frame (db : DB) (topic : Option String)
    (payment_id : Option Nat) (gateway : Nat → Option PaymentInfo) :
    (handle_mercadopago_webhook db topic payment_id gateway).1.products =
      db.products := by
  unfold handle_mercadopago_webhook
  dsimp only
  repeat' split
  all_goals rfl

theorem webhook_approved_pending_state
    (db : DB) (pid oid : Nat) (o : Order)
    (gateway : Nat → Option PaymentInfo) (info : PaymentInfo)
    (hg : gateway pid = some info)
    (hs : info.status = "approved")
    (href : info.external_reference = some oid)
    (ho : lookup db.orders oid = some o)
    (hp : o.status = OrderStatus.PENDING) :
    (handle_mercadopago_webhook db (some "payment") (some pid)
        gateway).1 =
      { db with
          payments := db.payments ++ [info],
          orders := setEntry db.orders oid
            (fun x => { x with status := OrderStatus.PROCESSING,
                               payment_id := some pid }) } := by
  unfold handle_mercadopago_webhook
  dsimp only
  rw [if_pos rfl, hg]
  dsimp only
  rw [href]
  dsimp only
  rw [ho]
  dsimp only
  rw [if_pos ⟨hs, hp⟩]

theorem webhook_order_noop
    (db : DB) (pid oid : Nat) (o : Order)
    (gateway : Nat → Option PaymentInfo) (info : PaymentInfo)
    (hg : gateway pid = some info)
    (href : info.external_reference = some oid)
    (ho : lookup db.orders oid = some o)
    (h1 : ¬(info.status = "approved" ∧ o.status = OrderStatus.PENDING))
    (h2 : ¬(info.status = "rejected" ∨ info.status = "cancelled")) :
    (handle_mercadopago_webhook db (some "payment") (some pid)
        gateway).1.orders = db.orders := by
  unfold handle_mercadopago_webhook
  dsimp only
  rw [if_pos rfl, hg]
  dsimp only
  rw [href]
  dsimp only
  rw [ho]
  dsimp only
  rw [if_neg h1, if_neg h2]

/-- C4: an approved-payment webhook moves an order to PROCESSING
(attaching the payment id) only when the order is currently PENDING;
delivering the identical webhook a second time changes neither the
orders collection (so neither the status nor the payment id) nor any
product's stock, and an order not in PENDING is never touched. -/
theorem webhook_approved_processing_idempotent
    (db : DB) (pid oid : Nat) (o : Order)
    (gateway : Nat → Option PaymentInfo) (info : PaymentInfo)
    (hg : gateway pid = some info)
    (hs : info.status = "approved")
    (href : info.external_reference = some oid)
    (ho : lookup db.orders oid = some o) :
    (o.status = OrderStatus.PENDING →
      lookup (handle_mercadopago_webhook db (some "payment") (some pid)
          gateway).1.orders oid =
        some { o with status := OrderStatus.PROCESSING,
                      payment_id := some pid } ∧
      (handle_mercadopago_webhook db (some "payment") (some pid)
          gateway).1.products = db.products ∧
      (handle_mercadopago_webhook
          (handle_mercadopago_webhook db (some "payment") (some pid)
            gateway).1
          (some "payment") (some pid) gateway).1.orders =
        (handle_mercadopago_webhook db (some "payment") (some pid)
          gateway).1.orders ∧
      (handle_mercadopago_webhook
          (handle_mercadopago_webhook db (some "payment") (some pid)
            gateway).1
          (some "payment") (some pid) gateway).1.products =
        (handle_mercadopago_webhook db (some "payment") (some pid)
          gateway).1.products) ∧
    (¬ o.status = OrderStatus.PENDING →
      (handle_mercadopago_webhook db (some "payment") (some pid)
          gateway).1.orders = db.orders ∧
      (handle_mercadopago_webhook db (some "payment") (some pid)
          gateway).1.products = db.products) := by
  constructor
  · intro hp
    have hstate := webhook_approved_pending_state db pid oid o gateway info
      hg hs href ho hp
    have hlook : lookup (handle_mercadopago_webhook db (some "payment")
        (some pid) gateway).1.orders oid =
        some { o with status := OrderStatus.PROCESSING,
                      payment_id := some pid } := by
      rw [hstate]
      dsimp only
      rw [lookup_setEntry_self, ho]
      rfl
    refine ⟨hlook, webhook_products_frame _ _ _ _, ?_, ?_⟩
    · exact webhook_order_noop _ pid oid _ gateway info hg href hlook
        (by simp [hs]) (by simp [hs])
    · exact webhook_products_frame _ _ _ _
  · intro hp
    refine ⟨?_, webhook_products_frame _ _ _ _⟩
    exact webhook_order_noop db pid oid o gateway info hg href ho
      (by simp [hp]) (by simp [hs])

/-- C4 witness: the idempotence statement evaluated on `demoDB` (order
0 PENDING) with the approved-payment gateway stub. -/
theorem webhook_approved_processing_idempotent_witness :
    lookup (handle_mercadopago_webhook demoDB (some "payment") (some 99)
        demoGatewayApproved).1.orders 0 =
      some { demoOrder with status := OrderStatus.PROCESSING,
                            payment_id := some 99 } ∧
    (handle_mercadopago_webhook demoDB (some "payment") (some 99)
        demoGatewayApproved).1.products = demoDB.products ∧
    (handle_mercadopago_webhook
        (handle_mercadopago_webhook demoDB (some "payment") (some 99)
          demoGatewayApproved).1
        (some "payment") (some 99) demoGatewayApproved).1.orders =
      (handle_mercadopago_webhook demoDB (some "payment") (some 99)
        demoGatewayApproved).1.orders ∧
    (handle_mercadopago_webhook
        (handle_mercadopago_webhook demoDB (some "payment") (some 99)
          demoGatewayApproved).1
        (some "payment") (some 99) demoGatewayApproved).1.products =
      (handle_mercadopago_webhook demoDB (some "payment") (some 99)
        demoGatewayApproved).1.products :=
  (webhook_approved_processing_idempotent demoDB 99 0 demoOrder
    demoGatewayApproved ⟨some 0, "approved"⟩ rfl rfl rfl rfl).1 rfl

/-! ### C5, C6, C7 — order creation -/

theorem orderTotal_eq_sum (items : List OrderItem) :
    orderTotal items =
      (items.map fun i => i.price_at_purchase * (i.quantity : ℚ)).sum := by
  suffices h : ∀ (l : List OrderItem) (acc : ℚ),
      l.foldl (fun a i => a + i.price_at_purchase * (i.quantity : ℚ)) acc =
        acc + (l.map fun i => i.price_at_purchase * (i.quantity : ℚ)).sum by
    simpa [orderTotal] using h items 0
  intro l
  induction l with
  | nil => intro acc; simp
  | cons hd tl ih => intro acc; simp [ih, add_assoc]

theorem snapshotCart_ok (P : List (Nat × Product)) (items : List CartItem)
    (h : ∀ it ∈ items, ∃ p, lookup P it.product_id = some p ∧
        (it.quantity : Int) ≤ p.stock) :
    snapshotCart P items = .ok (snapshotted P items) := by
  induction items with
  | nil => rfl
  | cons hd tl ih =>
    obtain ⟨p, hp, hle⟩ := h hd (List.mem_cons_self _ _)
    have htl := ih (fun it hit => h it (List.mem_cons_of_mem _ hit))
    unfold snapshotCart
    rw [hp]
    dsimp only
    rw [if_neg (not_lt.mpr hle), htl]
    simp [snapshotted, List.filterMap_cons, hp]

theorem snapshotted_rel (P : List (Nat × Product)) (items : List CartItem)
    (h : ∀ it ∈ items, ∃ p, lookup P it.product_id = some p) :
    List.Forall₂ (fun (it : CartItem) (oi : OrderItem) => ∃ p,
        lookup P it.product_id = some p ∧
        oi = ⟨it.product_id, p.name, it.quantity, p.price⟩)
      items (snapshotted P items) := by
  induction items with
  | nil => simp [snapshotted]
  | cons hd tl ih =>
    obtain ⟨p, hp⟩ := h hd (List.mem_cons_self _ _)
    have htl := ih (fun it hit => h it (List.mem_cons_of_mem _ hit))
    simp only [snapshotted, List.filterMap_cons, hp, Option.map_some]
    exact List.Forall₂.cons ⟨p, hp, rfl⟩ htl

theorem decrementAll_lookup_notmem (P : List (Nat × Product))
    (items : List CartItem) (k : Nat)
    (h : ∀ it ∈ items, it.product_id ≠ k) :
    lookup (decrementAll P items) k = lookup P k := by
  induction items generalizing P with
  | nil => rfl
  | cons hd tl ih =>
    unfold decrementAll
    rw [ih _ (fun it hit => h it (List.mem_cons_of_mem _ hit))]
    exact lookup_setEntry_ne _ _ _ _ (h hd (List.mem_cons_self _ _))

theorem decrementAll_lookup_mem (P : List (Nat × Product))
    (items : List CartItem) (it : CartItem)
    (hnd : (items.map CartItem.product_id).Nodup) (hmem : it ∈ items) :
    lookup (decrementAll P items) it.product_id =
      (lookup P it.product_id).map
        (fun p => { p with stock := p.stock - it.quantity }) := by
  induction items generalizing P with
  | nil => cases hmem
  | cons hd tl ih =>
    rw [List.map_cons, List.nodup_cons] at hnd
    rcases List.mem_cons.mp hmem with heq | hmemtl
    · subst heq
      unfold decrementAll
      rw [decrementAll_lookup_notmem _ _ _ ?notin]
      · exact lookup_setEntry_self _ _ _
      case notin =>
        intro it' hit' hcontra
        exact hnd.1 (hcontra ▸ List.mem_map_of_mem CartItem.product_id hit')
    · have hne : hd.product_id ≠ it.product_id := by
        intro hcontra
        exact hnd.1 (hcontra ▸ List.mem_map_of_mem CartItem.product_id hmemtl)
      unfold decrementAll
      rw [ih _ hnd.2 hmemtl, lookup_setEntry_ne _ _ _ _ hne]

theorem snapshotCart_insufficient (P : List (Nat × Product))
    (items : List CartItem)
    (hex : ∀ it ∈ items, ∃ p, lookup P it.product_id = some p)
    (hbad : ∃ it ∈ items, ∃ p, lookup P it.product_id = some p ∧
        p.stock < (it.quantity : Int)) :
    snapshotCart P items = .error 409 := by
  induction items with
  | nil => obtain ⟨it, hit, _⟩ := hbad; cases hit
  | cons hd tl ih =>
    obtain ⟨p, hp⟩ := hex hd (List.mem_cons_self _ _)
    unfold snapshotCart
    rw [hp]
    dsimp only
    by_cases hlt : p.stock < (hd.quantity : Int)
    · rw [if_pos hlt]
    · rw [if_neg hlt]
      have hbadtl : ∃ it ∈ tl, ∃ q, lookup P it.product_id = some q ∧
          q.stock < (it.quantity : Int) := by
        obtain ⟨it, hit, q, hq, hqlt⟩ := hbad
        rcases List.mem_cons.mp hit with heq | hmemtl
        · exfalso
          subst heq
          rw [hp] at hq
          cases hq
          exact hlt hqlt
        · exact ⟨it, hmemtl, q, hq, hqlt⟩
      rw [ih (fun it hit => hex it (List.mem_cons_of_mem _ hit)) hbadtl]

/-- C5: when the caller's cart is non-empty and every item references
an existing product with sufficient stock, `create_order` succeeds and
afterwards: an order with status PENDING exists under the id the store
assigned, its items are the name-and-price snapshot of the cart (one
per cart line, in order), its total is the sum of quantity times
price_at_purchase over its items, each referenced product's stock is
decremented by exactly the ordered quantity, untouched products keep
their stock, and the caller's cart is empty. -/
theorem create_order_success_postconditions
    (db : DB) (uid : Nat) (cart : List CartItem)
    (hc : lookup db.carts uid = some cart)
    (hne : cart ≠ [])
    (hstock : ∀ it ∈ cart, ∃ p, lookup db.products it.product_id = some p ∧
        (it.quantity : Int) ≤ p.stock)
    (hnd : (cart.map CartItem.product_id).Nodup)
    (hfresh : lookup db.orders db.nextOrderId = none) :
    (create_order db uid).2 = .ok db.nextOrderId ∧
    lookup (create_order db uid).1.orders db.nextOrderId =
      some ⟨uid, snapshotted db.products cart,
        orderTotal (snapshotted db.products cart), OrderStatus.PENDING,
        none⟩ ∧
    List.Forall₂ (fun (it : CartItem) (oi : OrderItem) => ∃ p,
        lookup db.products it.product_id = some p ∧
        oi = ⟨it.product_id, p.name, it.quantity, p.price⟩)
      cart (snapshotted db.products cart) ∧
    orderTotal (snapshotted db.products cart) =
      ((snapshotted db.products cart).map
        fun i => i.price_at_purchase * (i.quantity : ℚ)).sum ∧
    (∀ it ∈ cart, ∀ p, lookup db.products it.product_id = some p →
      lookup (create_order db uid).1.products it.product_id =
        some { p with stock := p.stock - it.quantity }) ∧
    (∀ k, (∀ it ∈ cart, it.product_id ≠ k) →
      lookup (create_order db uid).1.products k = lookup db.products k) ∧
    lookup (create_order db uid).1.carts uid = some [] := by
  have hie : cart.isEmpty = false := by
    cases cart with
    | nil => exact absurd rfl hne
    | cons a l => rfl
  have hred : create_order db uid =
      ({ db with
          orders := db.orders ++ [(db.nextOrderId,
            ⟨uid, snapshotted db.products cart,
              orderTotal (snapshotted db.products cart),
              OrderStatus.PENDING, none⟩)],
          nextOrderId := db.nextOrderId + 1,
          products := decrementAll db.products cart,
          carts := setEntry db.carts uid (fun _ => []) },
        .ok db.nextOrderId) := by
    unfold create_order
    rw [hc]
    dsimp only
    rw [hie]
    simp only [Bool.false_eq_true, if_false]
    rw [snapshotCart_ok db.products cart hstock]
  refine ⟨by rw [hred], ?_, ?_, orderTotal_eq_sum _, ?_, ?_, ?_⟩
  · rw [hred]
    exact lookup_append_right _ _ _ hfresh
  · exact snapshotted_rel db.products cart
      (fun it hit => (hstock it hit).imp fun p hp => hp.1)
  · intro it hit p hp
    rw [hred]
    dsimp only
    rw [decrementAll_lookup_mem db.products cart it hnd hit, hp]
    rfl
  · intro k hk
    rw [hred]
    exact decrementAll_lookup_notmem _ _ _ hk
  · rw [hred]
    dsimp only
    rw [lookup_setEntry_self, hc]
    rfl

/-- C5 witness: the cart `[(product 1, qty 2)]` with price 10 and stock
5 yields an order with total 20, stock 3 and an empty cart. -/
theorem create_order_success_postconditions_witness :
    (create_order demoCartDB 2).2 = .ok 3 ∧
    lookup (create_order demoCartDB 2).1.orders 3 =
      some ⟨2, snapshotted demoCartDB.products [⟨1, 2⟩],
        orderTotal (snapshotted demoCartDB.products [⟨1, 2⟩]),
        OrderStatus.PENDING, none⟩ ∧
    snapshotted demoCartDB.products [⟨1, 2⟩] = [⟨1, "Fernet", 2, 10⟩] ∧
    orderTotal [⟨1, "Fernet", 2, 10⟩] = 20 ∧
    lookup (create_order demoCartDB 2).1.products 1 =
      some ⟨"Fernet", 10, 3⟩ ∧
    lookup (create_order demoCartDB 2).1.carts 2 = some [] := by
  have h := create_order_success_postconditions demoCartDB 2 [⟨1, 2⟩] rfl
    (by decide)
    (fun it hit => by
      rw [List.mem_singleton] at hit
      subst hit
      exact ⟨⟨"Fernet", 10, 5⟩, rfl, by decide⟩)
    (by decide) rfl
  refine ⟨h.1, h.2.1, rfl, ?_, ?_, h.2.2.2.2.2.2⟩
  · norm_num [orderTotal, List.foldl_cons, List.foldl_nil]
  · exact h.2.2.2.2.1 ⟨1, 2⟩ (by decide) ⟨"Fernet", 10, 5⟩ rfl

/-- C6: when every cart item references an existing product but some
item requests more than that product's current stock, `create_order`
fails with HTTP 409 and returns the state exactly as it was: no order
inserted, no stock changed, the cart intact. -/
theorem create_order_insufficient_stock_atomic
    (db : DB) (uid : Nat) (cart : List CartItem)
    (hc : lookup db.carts uid = some cart)
    (hne : cart ≠ [])
    (hex : ∀ it ∈ cart, ∃ p, lookup db.products it.product_id = some p)
    (hbad : ∃ it ∈ cart, ∃ p, lookup db.products it.product_id = some p ∧
        p.stock < (it.quantity : Int)) :
    create_order db uid = (db, .error 409) := by
  have hie : cart.isEmpty = false := by
    cases cart with
    | nil => exact absurd rfl hne
    | cons a l => rfl
  unfold create_order
  rw [hc]
  dsimp only
  rw [hie]
  simp only [Bool.false_eq_true, if_false]
  rw [snapshotCart_insufficient db.products cart hex hbad]

/-- C6 witness: requesting 2 units of a product with stock 1 fails
with 409 and leaves the state untouched. -/
theorem create_order_insufficient_stock_atomic_witness :
    create_order lowStockDB 2 = (lowStockDB, .error 409) :=
  create_order_insufficient_stock_atomic lowStockDB 2 [⟨1, 2⟩] rfl
    (by decide)
    (fun it hit => by
      rw [List.mem_singleton] at hit
      subst hit
      exact ⟨⟨"Fernet", 10, 1⟩, rfl⟩)
    ⟨⟨1, 2⟩, by decide, ⟨"Fernet", 10, 1⟩, rfl, by decide⟩

theorem update_product_orders_frame (db : DB) (pid : Nat)
    (upd : Product) : (update_product db pid upd).1.orders = db.orders := by
  unfold update_product
  split <;> rfl

/-- C7: snapshot frame immunity — for an order produced by
`create_order`, any later `update_product` catalog edit (changing the
price, the name, or anything else about any product) leaves the stored
order document, hence every item's `price_at_purchase` and `name` and
the order's `total_amount`, exactly as it was. -/
theorem order_snapshot_immune_to_catalog_update
    (db : DB) (uid : Nat) (db₁ : DB) (oid : Nat)
    (hcreate : create_order db uid = (db₁, .ok oid))
    (ord : Order) (hord : lookup db₁.orders oid = some ord)
    (pid : Nat) (upd : Product) :
    lookup (update_product db₁ pid upd).1.orders oid = some ord := by
  rw [update_product_orders_frame]
  exact hord

/-- C7 witness: after creating the demo order, repricing product 1 to
99 leaves the order's snapshot (price 10 per unit, the original total)
unchanged. -/
theorem order_snapshot_immune_to_catalog_update_witness :
    lookup (update_product (create_order demoCartDB 2).1 1
        ⟨"Fernet", 99, 3⟩).1.orders 3 =
      some ⟨2, [⟨1, "Fernet", 2, 10⟩], orderTotal [⟨1, "Fernet", 2, 10⟩],
        OrderStatus.PENDING, none⟩ :=
  order_snapshot_immune_to_catalog_update demoCartDB 2
    (create_order demoCartDB 2).1 3 rfl
    ⟨2, [⟨1, "Fernet", 2, 10⟩], orderTotal [⟨1, "Fernet", 2, 10⟩],
      OrderStatus.PENDING, none⟩ rfl 1 ⟨"Fernet", 99, 3⟩

/-! ### C8 — low-stock alerts -/

/-- C8 counterexample: the claim deduplicates alerts by message text
alone, but the code's `find_one` filter also matches on `product_id`.
In `duplicateNameDB`, products 1 and 2 share the name "Fernet" and the
stock 9, and an alert whose message equals the one product 2 would emit
is already on file (for product 1) — yet checking product 2 inserts a
new alert anyway: the alert count grows by one although an alert with
identical message text already existed. -/
theorem alert_dedup_by_message_only_counterexample :
    (∃ a ∈ duplicateNameDB.alerts,
      a.message = alertMessage "Fernet" 9) ∧
    (check_and_create_alert duplicateNameDB 2).alerts.length =
      duplicateNameDB.alerts.length + 1 := by
  decide

/-- C8 (amended): after a stock mutation, the alert check inserts a new
`InventoryAlert` if and only if the product's current stock is at or
below the threshold (10) and no alert with the SAME product_id AND the
same message text already exists; otherwise the alerts collection is
unchanged. -/
theorem check_and_create_alert_insert_condition
    (db : DB) (pid : Nat) (p : Product)
    (hp : lookup db.products pid = some p) :
    (check_and_create_alert db pid).alerts =
      (if p.stock ≤ (LOW_STOCK_THRESHOLD : Int) ∧
          ¬ ∃ a ∈ db.alerts, a.product_id = pid ∧
            a.message = alertMessage p.name p.stock
        then db.alerts ++ [⟨pid, p.name, p.stock, LOW_STOCK_THRESHOLD,
            alertMessage p.name p.stock⟩]
        else db.alerts) := by
  unfold check_and_create_alert
  rw [hp]
  dsimp only
  by_cases hs : p.stock ≤ (LOW_STOCK_THRESHOLD : Int)
  · rw [if_pos hs]
    by_cases hdup : ∃ a ∈ db.alerts, a.product_id = pid ∧
        a.message = alertMessage p.name p.stock
    · have hany : db.alerts.any
          (fun a => a.product_id == pid &&
            a.message == alertMessage p.name p.stock) = true := by
        rw [List.any_eq_true]
        obtain ⟨a, ha, h1, h2⟩ := hdup
        exact ⟨a, ha, by simp [h1, h2]⟩
      rw [hany]
      simp only [if_true]
      rw [if_neg (fun hcontra => hcontra.2 hdup)]
    · have hany : db.alerts.any
          (fun a => a.product_id == pid &&
            a.message == alertMessage p.name p.stock) = false := by
        rw [List.any_eq_false]
        intro a ha
        simp only [Bool.and_eq_true, beq_iff_eq, not_and]
        intro h1 h2
        exact hdup ⟨a, ha, h1, h2⟩
      rw [hany]
      simp only [Bool.false_eq_true, if_false]
      rw [if_pos ⟨hs, hdup⟩]
  · rw [if_neg hs, if_neg (fun hcontra => hs hcontra.1)]

/-- C8 witness: setting product 1's stock from 11 down to 9 creates
exactly one alert, and repeating the identical mutation (producing the
same message for the same product) creates no duplicate. -/
theorem check_and_create_alert_insert_condition_witness :
    (update_product_stock alertDB 1 9).1.alerts =
      [⟨1, "Fernet", 9, LOW_STOCK_THRESHOLD, alertMessage "Fernet" 9⟩] ∧
    (update_product_stock (update_product_stock alertDB 1 9).1 1
        9).1.alerts =
      [⟨1, "Fernet", 9, LOW_STOCK_THRESHOLD, alertMessage "Fernet" 9⟩] := by
  constructor
  · show (check_and_create_alert
        ⟨[(1, ⟨"Fernet", 10, 9⟩)], [], [], [], [], 3⟩ 1).alerts = _
    rw [check_and_create_alert_insert_condition
        ⟨[(1, ⟨"Fernet", 10, 9⟩)], [], [], [], [], 3⟩ 1
        ⟨"Fernet", 10, 9⟩ rfl,
      if_pos (by decide)]
    rfl
  · show (check_and_create_alert
        ⟨[(1, ⟨"Fernet", 10, 9⟩)], [], [],
          [⟨1, "Fernet", 9, LOW_STOCK_THRESHOLD, alertMessage "Fernet" 9⟩],
          [], 3⟩ 1).alerts = _
    rw [check_and_create_alert_insert_condition
        ⟨[(1, ⟨"Fernet", 10, 9⟩)], [], [],
          [⟨1, "Fernet", 9, LOW_STOCK_THRESHOLD, alertMessage "Fernet" 9⟩],
          [], 3⟩ 1
        ⟨"Fernet", 10, 9⟩ rfl,
      if_neg (by decide)]

/-! ### C9 — remove-on-zero branch unreachable -/

theorem rewriteItems_mem_preserved (items : List CartItem) (b : CartItem)
    (hq : 0 < b.quantity) (k : Nat)
    (h : ∃ it ∈ items, it.product_id = k) :
    ∃ it' ∈ rewriteItems items b, it'.product_id = k := by
  induction items with
  | nil => obtain ⟨it, hit, _⟩ := h; cases hit
  | cons hd tl ih =>
    obtain ⟨it, hit, hk⟩ := h
    rcases List.mem_cons.mp hit with heq | hmemtl
    · subst heq
      unfold rewriteItems
      by_cases hpid : it.product_id = b.product_id
      · rw [if_pos hpid, if_pos hq]
        exact ⟨_, List.mem_cons_self _ _, hk⟩
      · rw [if_neg hpid]
        exact ⟨it, List.mem_cons_self _ _, hk⟩
    · obtain ⟨it', hit', hk'⟩ := ih ⟨it, hmemtl, hk⟩
      unfold rewriteItems
      by_cases hpid : hd.product_id = b.product_id
      · rw [if_pos hpid, if_pos hq]
        exact ⟨it', List.mem_cons_of_mem _ hit', hk'⟩
      · rw [if_neg hpid]
        exact ⟨it', List.mem_cons_of_mem _ hit', hk'⟩

/-- C9: the remove-on-zero branch of the cart-quantity update is
unreachable from the public interface — a request with quantity 0 is
rejected by validation (HTTP 422, state untouched) before the handler
runs, every accepted request carries quantity at least 1, and no
request can ever remove an item from the cart: every product present
in the caller's cart before the call is still present after it. -/
theorem cart_update_zero_quantity_unreachable
    (db : DB) (uid : Nat) (body : CartItem) :
    (body.quantity = 0 →
      update_cart_item_quantity db uid body = (db, .error 422)) ∧
    (cartItemValid body = true → 1 ≤ body.quantity) ∧
    (∀ k, (∃ it ∈ (lookup db.carts uid).getD [], it.product_id = k) →
      ∃ it' ∈ (lookup (update_cart_item_quantity db uid body).1.carts
          uid).getD [], it'.product_id = k) := by
  refine ⟨?_, ?_, ?_⟩
  · intro h0
    unfold update_cart_item_quantity cartItemValid
    rw [h0]
    rfl
  · intro hv
    unfold cartItemValid at hv
    exact Nat.succ_le_of_lt (of_decide_eq_true hv)
  · intro k hk
    by_cases hv : cartItemValid body = true
    · have hq : 0 < body.quantity := by
        unfold cartItemValid at hv
        exact of_decide_eq_true hv
      unfold update_cart_item_quantity
      rw [hv]
      simp only [if_true]
      unfold update_cart_item_quantity_handler
      rw [if_pos hq]
      rcases hp : lookup db.products body.product_id with _ | p
      · try dsimp only
        exact hk
      · try dsimp only
        by_cases hstock : p.stock < (body.quantity : Int)
        · rw [if_pos hstock]
          try dsimp only
          exact hk
        · rw [if_neg hstock]
          try dsimp only
          unfold get_user_cart
          rcases hcart : lookup db.carts uid with _ | cart
          · obtain ⟨it, hit, _⟩ := hk
            rw [hcart] at hit
            cases hit
          · try dsimp only
            by_cases hfound : cart.any
                (fun it => it.product_id == body.product_id) = true
            · rw [hfound]
              simp only [if_true]
              try dsimp only
              rw [lookup_setEntry_self, hcart]
              rw [hcart] at hk
              exact rewriteItems_mem_preserved cart body hq k hk
            · rw [Bool.not_eq_true] at hfound
              rw [hfound]
              simp only [Bool.false_eq_true, if_false]
              try dsimp only
              exact hk
    · rw [Bool.not_eq_true] at hv
      unfold update_cart_item_quantity
      rw [hv]
      simp only [Bool.false_eq_true, if_false]
      exact hk

/-- C9 witness: a quantity-0 update against a cart holding product 1 is
rejected with 422 and the item survives in the cart. -/
theorem cart_update_zero_quantity_unreachable_witness :
    update_cart_item_quantity cartWithItemDB 7 ⟨1, 0⟩ =
      (cartWithItemDB, .error 422) ∧
    (∃ it' ∈ (lookup (update_cart_item_quantity cartWithItemDB 7
        ⟨1, 0⟩).1.carts 7).getD [], it'.product_id = 1) := by
  refine ⟨(cart_update_zero_quantity_unreachable cartWithItemDB 7
    ⟨1, 0⟩).1 rfl, ?_⟩
  exact (cart_update_zero_quantity_unreachable cartWithItemDB 7
    ⟨1, 0⟩).2.2 1 ⟨⟨1, 1⟩, by decide, rfl⟩

/-! ### C10 — cart accumulation past stock -/

/-- C10: `add_to_cart` checks stock only against the requested quantity
and sums quantities for a repeated product, so with product 1 at stock
3, two successive requests for 2 units each both succeed (2 ≤ 3 < 4)
and leave the cart holding 4 units — strictly more than the available
stock, which itself is unchanged. -/
theorem add_to_cart_accumulates_past_stock :
    ((2 : Nat) : Int) ≤ (3 : Int) ∧ (3 : Int) < 2 * 2 ∧
    (add_to_cart cartDemoDB 7 ⟨1, 2⟩).2 = .ok [⟨1, 2⟩] ∧
    (add_to_cart (add_to_cart cartDemoDB 7 ⟨1, 2⟩).1 7 ⟨1, 2⟩).2 =
      .ok [⟨1, 4⟩] ∧
    lookup (add_to_cart (add_to_cart cartDemoDB 7 ⟨1, 2⟩).1 7
        ⟨1, 2⟩).1.carts 7 = some [⟨1, 4⟩] ∧
    lookup cartDemoDB.products 1 = some ⟨"Fernet", 10, 3⟩ ∧
    lookup (add_to_cart (add_to_cart cartDemoDB 7 ⟨1, 2⟩).1 7
        ⟨1, 2⟩).1.products 1 = some ⟨"Fernet", 10, 3⟩ ∧
    (3 : Int) < ((4 : Nat) : Int) :=
  ⟨by decide, by decide, rfl, rfl, rfl, rfl, rfl, by decide⟩

end WebMarket
